import Mathlib

/-!
Shallow embedding of `vtkMRMLCrosshairDisplayableManager.cxx` (3D Slicer).

The C++ file implements a displayable manager keeping a 2D crosshair glyph
synchronized with a shared crosshair node: change classifiers
(`DidCrosshairPositionChange`, `DidCrosshairPropertyChange`), binding
resolution (`UpdateSliceNode`, `FindSliceCompositeNode`, `FindCrosshairNode`,
`SetSliceCompositeNode`, `SetCrosshairNode`), glyph construction
(`BuildCrosshair`, `AddCrosshairLine`) and the event handler
(`ProcessMRMLEvents`).  Machine doubles are modelled as rationals; VTK
pointers as option-valued identifiers; the observable effects of the event
handler are additionally recorded as a trace of actions.
-/

namespace CrosshairDM

/-- Crosshair display modes of `vtkMRMLCrosshairNode`
(`NoCrosshair`, `ShowBasic`, `ShowIntersection`, `ShowSmallBasic`,
`ShowSmallIntersection`). -/
inductive CrosshairMode where
  | noCrosshair
  | showBasic
  | showIntersection
  | showSmallBasic
  | showSmallIntersection
deriving DecidableEq

/-- Crosshair thickness values of `vtkMRMLCrosshairNode`
(`Fine`, `Medium`, `Thick`). -/
inductive CrosshairThickness where
  | fine
  | medium
  | thick
deriving DecidableEq

/-- The attribute bundle of a crosshair node that this manager reads and
caches: the RAS position (`GetCrosshairRAS`), the display mode
(`GetCrosshairMode`) and the thickness (`GetCrosshairThickness`). -/
structure CrosshairState where
  ras0 : ℚ
  ras1 : ℚ
  ras2 : ℚ
  mode : CrosshairMode
  thickness : CrosshairThickness
deriving DecidableEq

/-- A `vtkMRMLCrosshairNode` in the scene: identity (the pointer), its
name (`GetCrosshairName`) and its current state. -/
structure CrosshairNode where
  nodeId : ℕ
  crosshairName : String
  state : CrosshairState
deriving DecidableEq

/-- A `vtkMRMLSliceCompositeNode` in the scene: identity (the pointer) and
its layout name (`GetLayoutName`, possibly null). -/
structure SliceCompositeNode where
  nodeId : ℕ
  layoutName : Option String
deriving DecidableEq

/-- A node of the MRML scene, as far as this manager inspects it via
`SafeDownCast`. -/
inductive SceneNode where
  | crosshair (n : CrosshairNode)
  | composite (n : SliceCompositeNode)
  | other (nodeId : ℕ)
deriving DecidableEq

/-- A 2D actor (`vtkActor2D` holding a `vtkPolyData` of lines together with
its `vtkProperty2D`).  `points` are the points inserted by
`vtkPoints::InsertNextPoint`, `cells` the two-point line cells of the
`vtkCellArray`; the property fields are `none` while untouched. -/
structure Actor2D where
  actorId : ℕ
  points : List (ℤ × ℤ × ℤ)
  cells : List (ℕ × ℕ)
  lineWidth : Option ℕ
  color : Option (ℚ × ℚ × ℚ)
  opacity : Option ℚ
  visible : Option Bool
  position : Option (ℚ × ℚ)
deriving DecidableEq

/-- The state of the displayable manager and its collaborators that the
translated functions read and write: the scene (a node list, absent when
`GetMRMLScene()` is null) and its bulk-update flag, the owning slice node's
layout name (`none` models a null slice node), the two bound weak pointers,
the owned cache node, the observer subscriptions installed through
`AddObserver` (a multiset of observed node ids), the current actor, the
lightbox renderer bookkeeping, the renderer-manager proxy
(`GetRenderer : depth to renderer`), the slice node's XYToRAS matrix and the
render window's screen size. -/
structure ManagerState where
  scene : Option (List SceneNode)
  sceneIsUpdating : Bool
  sliceLayoutName : Option String
  sliceCompositeNode : Option SliceCompositeNode
  crosshairNode : Option CrosshairNode
  cache : CrosshairState
  observers : List ℕ
  actor : Option Actor2D
  nextActorId : ℕ
  lightBoxRenderer : Option ℕ
  rendererActors : List (ℕ × ℕ)
  lightBoxProxy : Option (ℚ → Option ℕ)
  xyToRAS : Matrix (Fin 4) (Fin 4) ℚ
  screenW : ℤ
  screenH : ℤ

/-- The tolerance `eps = 1.0e-12` of `DidCrosshairPositionChange`. -/
def crosshairEps : ℚ := 1 / 1000000000000

/-- `vtkInternal::DidCrosshairPositionChange` (lines 132-153): false when no
crosshair node is bound; otherwise false iff all three RAS components of the
cache differ from the node's by strictly less than `eps`. -/
def didCrosshairPositionChange (st : ManagerState) : Bool :=
  match st.crosshairNode with
  | none => false
  | some node =>
    if |st.cache.ras0 - node.state.ras0| < crosshairEps ∧
       |st.cache.ras1 - node.state.ras1| < crosshairEps ∧
       |st.cache.ras2 - node.state.ras2| < crosshairEps then
      false
    else
      true

/-- `vtkInternal::DidCrosshairPropertyChange` (lines 156-176): false when no
crosshair node is bound; otherwise the flag `change` is raised when the mode
differs and when the thickness differs. -/
def didCrosshairPropertyChange (st : ManagerState) : Bool :=
  match st.crosshairNode with
  | none => false
  | some node =>
    let change := false
    let change := if st.cache.mode ≠ node.state.mode then true else change
    let change := if st.cache.thickness ≠ node.state.thickness then true else change
    change

/-- Result of the two scene-scanning lookups.  `noSearch` is the early
`return 0` for a missing scene (or missing slice node); `fatalAssert` is the
`assert(0); return 0` branch reached when the scan finds no match. -/
inductive FindResult (α : Type) where
  | found (a : α)
  | noSearch
  | fatalAssert
deriving DecidableEq

/-- The node a lookup hands to the subsequent `Set...` call: in a release
build both `noSearch` and `fatalAssert` return the null pointer. -/
def FindResult.toOption {α : Type} : FindResult α → Option α
  | .found a => some a
  | .noSearch => none
  | .fatalAssert => none

/-- `vtkInternal::FindSliceCompositeNode` (lines 207-234): null when the
scene or the slice node is absent; otherwise a linear scan of the scene for
the first composite node whose non-null layout name equals the slice node's
layout name; `assert(0)` when none matches. -/
def findSliceCompositeNode (scene : Option (List SceneNode))
    (sliceLayoutName : Option String) : FindResult SliceCompositeNode :=
  match scene, sliceLayoutName with
  | none, _ => .noSearch
  | some _, none => .noSearch
  | some nodes, some layout =>
    match nodes.findSome? (fun nd =>
        match nd with
        | .composite c => if c.layoutName = some layout then some c else none
        | _ => none) with
    | some c => .found c
    | none => .fatalAssert

/-- `vtkInternal::FindCrosshairNode` (lines 279-304): null when the scene is
absent; otherwise a linear scan of the scene's crosshair nodes for the first
one named `"default"`; `assert(0)` when none matches. -/
def findCrosshairNode (scene : Option (List SceneNode)) :
    FindResult CrosshairNode :=
  match scene with
  | none => .noSearch
  | some nodes =>
    match nodes.findSome? (fun nd =>
        match nd with
        | .crosshair c => if c.crosshairName = "default" then some c else none
        | _ => none) with
    | some c => .found c
    | none => .fatalAssert

/-- `vtkInternal::SetSliceCompositeNode` (lines 237-255): no-op when the new
pointer equals the current one; otherwise remove the observer from the old
node, swap the pointer, add an observer on the new node. -/
def setSliceCompositeNode (st : ManagerState)
    (compositeNode : Option SliceCompositeNode) : ManagerState :=
  if st.sliceCompositeNode = compositeNode then
    st
  else
    let obs := match st.sliceCompositeNode with
      | some old => st.observers.erase old.nodeId
      | none => st.observers
    let obs := match compositeNode with
      | some nw => obs ++ [nw.nodeId]
      | none => obs
    { st with sliceCompositeNode := compositeNode, observers := obs }

/-- `vtkInternal::SetCrosshairNode` (lines 258-276): same pattern as
`setSliceCompositeNode` for the crosshair node. -/
def setCrosshairNode (st : ManagerState)
    (crosshairNode : Option CrosshairNode) : ManagerState :=
  if st.crosshairNode = crosshairNode then
    st
  else
    let obs := match st.crosshairNode with
      | some old => st.observers.erase old.nodeId
      | none => st.observers
    let obs := match crosshairNode with
      | some nw => obs ++ [nw.nodeId]
      | none => obs
    { st with crosshairNode := crosshairNode, observers := obs }

/-- The composite-rebind condition of `vtkInternal::UpdateSliceNode`
(lines 191-194): the bound pointer is null, or its layout name is null, or
it differs from the slice node's layout name. -/
def needsCompositeRebind (st : ManagerState) : Bool :=
  match st.sliceCompositeNode with
  | none => true
  | some c =>
    match c.layoutName with
    | none => true
    | some layout => decide (st.sliceLayoutName ≠ some layout)

/-- `vtkInternal::UpdateSliceNode` (lines 187-204): rebind the composite
node when `needsCompositeRebind` holds; then unconditionally rebind the
crosshair node. -/
def updateSliceNode (st : ManagerState) : ManagerState :=
  let st1 :=
    if needsCompositeRebind st then
      setSliceCompositeNode st
        (findSliceCompositeNode st.scene st.sliceLayoutName).toOption
    else
      st
  setCrosshairNode st1 (findCrosshairNode st1.scene).toOption

/-- `vtkInternal::AddCrosshairLine` (lines 437-445): insert the two end
points (z = 0) into the point list and a two-point cell referring to them. -/
def addCrosshairLine (pts : List (ℤ × ℤ × ℤ)) (cells : List (ℕ × ℕ))
    (p1x p1y p2x p2y : ℤ) : List (ℤ × ℤ × ℤ) × List (ℕ × ℕ) :=
  let p1 := pts.length
  let pts := pts ++ [(p1x, p1y, 0)]
  let p2 := pts.length
  let pts := pts ++ [(p2x, p2y, 0)]
  (pts, cells ++ [(p1, p2)])

/-- The line segments of the crosshair geometry for a given mode and screen
size, exactly the `switch` of `BuildCrosshair` (lines 362-401), folded over
`addCrosshairLine`. -/
def crosshairGeometry (mode : CrosshairMode) (screenW screenH : ℤ) :
    List (ℤ × ℤ × ℤ) × List (ℕ × ℕ) :=
  let negW := -screenW
  let negWminus : ℤ := -5
  let negWminus2 : ℤ := -10
  let posWplus : ℤ := 5
  let posWplus2 : ℤ := 10
  let posW := screenW
  let negH := -screenH
  let negHminus : ℤ := -5
  let negHminus2 : ℤ := -10
  let posHplus : ℤ := 5
  let posHplus2 : ℤ := 10
  let posH := screenH
  match mode with
  | .noCrosshair => ([], [])
  | .showBasic =>
    let (pts, cells) := addCrosshairLine [] [] 0 negH 0 negHminus
    let (pts, cells) := addCrosshairLine pts cells 0 posHplus 0 posH
    let (pts, cells) := addCrosshairLine pts cells negW 0 negWminus 0
    addCrosshairLine pts cells posWplus 0 posW 0
  | .showIntersection =>
    let (pts, cells) := addCrosshairLine [] [] negW 0 posW 0
    addCrosshairLine pts cells 0 negH 0 posH
  | .showSmallBasic =>
    let (pts, cells) := addCrosshairLine [] [] 0 negHminus2 0 negHminus
    let (pts, cells) := addCrosshairLine pts cells 0 posHplus 0 posHplus2
    let (pts, cells) := addCrosshairLine pts cells negWminus2 0 negWminus 0
    addCrosshairLine pts cells posWplus 0 posWplus2 0
  | .showSmallIntersection =>
    let (pts, cells) := addCrosshairLine [] [] 0 negHminus2 0 posHplus2
    addCrosshairLine pts cells negWminus2 0 posWplus2 0

/-- `vtkInternal::BuildCrosshair` (lines 307-434): return immediately when
no crosshair node is bound; otherwise remove the old actor from the lightbox
renderer and discard it, create a fresh actor, add it to the lightbox
renderer when one is known, fill in the mode-dependent geometry, map the
thickness to a line width (fine 1, medium 3, thick 5), set the color to
(1.0, 0.8, 0.1) and the opacity to 1.0, and set the visibility off exactly
for mode `NoCrosshair`. -/
def buildCrosshair (st : ManagerState) : ManagerState :=
  match st.crosshairNode with
  | none => st
  | some node =>
    let ra := match st.actor with
      | some a =>
        match st.lightBoxRenderer with
        | some r => st.rendererActors.erase (r, a.actorId)
        | none => st.rendererActors
      | none => st.rendererActors
    let aId := st.nextActorId
    let ra := match st.lightBoxRenderer with
      | some r => ra ++ [(r, aId)]
      | none => ra
    let (pts, cells) := crosshairGeometry node.state.mode st.screenW st.screenH
    let lw : Option ℕ :=
      if node.state.thickness = .fine then some 1
      else if node.state.thickness = .medium then some 3
      else if node.state.thickness = .thick then some 5
      else none
    let actor : Actor2D :=
      { actorId := aId
        points := pts
        cells := cells
        lineWidth := lw
        color := some (1, 4/5, 1/10)
        opacity := some 1
        visible := some (node.state.mode ≠ .noCrosshair)
        position := none }
    { st with
        actor := some actor
        nextActorId := st.nextActorId + 1
        rendererActors := ra }

/-- The segments of an actor, resolving each cell's point ids to the
inserted coordinates. -/
def actorSegments (a : Actor2D) : List ((ℤ × ℤ × ℤ) × (ℤ × ℤ × ℤ)) :=
  a.cells.map (fun c => (a.points.getD c.1 (0, 0, 0), a.points.getD c.2 (0, 0, 0)))

/-- `vtkMatrix4x4::Invert` on the deep copy of the slice node's XYToRAS
matrix (lines 503-505), modelled as the exact adjugate inverse over ℚ. -/
def invert4 (m : Matrix (Fin 4) (Fin 4) ℚ) : Matrix (Fin 4) (Fin 4) ℚ :=
  m.det⁻¹ • m.adjugate

/-- Object that raised the notification, as `ProcessMRMLEvents` classifies
it: the manager's MRML scene, a crosshair node (`SafeDownCast` succeeds), or
any other object. -/
inductive Caller where
  | scene
  | crosshairNode
  | otherNode
deriving DecidableEq

/-- The event ids `ProcessMRMLEvents` branches on. -/
inductive MRMLEvent where
  | modified
  | sceneImported
  | sceneRestored
  | otherEvent
deriving DecidableEq

/-- Observable effects of one `ProcessMRMLEvents` call, recorded in order:
the `UpdateSliceNode` call, the `BuildCrosshair` call, `Actor->SetPosition`,
the `GetRenderer(pos[2])` query on the lightbox proxy, renderer
`RemoveActor`/`AddActor` calls, the cache `Copy`, and `RequestRender`. -/
inductive Action where
  | updateSliceNodeAct
  | buildCrosshairAct
  | setActorPosition (x y : ℚ)
  | surfaceQuery (z : ℚ)
  | removeActorAct (renderer : ℕ)
  | addActorAct (renderer : ℕ)
  | copyCache
  | requestRender
deriving DecidableEq

/-- The position-update block of `ProcessMRMLEvents` (lines 500-537), run
when the position changed or the crosshair was just rebuilt and an actor
exists: invert XYToRAS, apply it to the homogeneous RAS position (w = 1),
divide by w, set the actor's 2D position to (x, y), then query the lightbox
proxy with the depth z and re-parent the actor when the renderer differs
from the current one. -/
def poseUpdate (st : ManagerState) : ManagerState × List Action :=
  match st.crosshairNode, st.actor with
  | some node, some a =>
    let m := invert4 st.xyToRAS
    let rasw : Fin 4 → ℚ := ![node.state.ras0, node.state.ras1, node.state.ras2, 1]
    let pos := m.mulVec rasw
    let w := pos 3
    let p0 := pos 0 / w
    let p1 := pos 1 / w
    let p2 := pos 2 / w
    let a1 := { a with position := some (p0, p1) }
    let st1 := { st with actor := some a1 }
    let (st2, acts2) :=
      match st.lightBoxProxy with
      | some proxy =>
        let renderer := proxy p2
        if renderer ≠ st1.lightBoxRenderer then
          let (ra, remActs) := match st1.lightBoxRenderer with
            | some rOld =>
              (st1.rendererActors.erase (rOld, a1.actorId), [Action.removeActorAct rOld])
            | none => (st1.rendererActors, [])
          let (ra, addActs) := match renderer with
            | some rNew => (ra ++ [(rNew, a1.actorId)], [Action.addActorAct rNew])
            | none => (ra, [])
          ({ st1 with rendererActors := ra, lightBoxRenderer := renderer },
           [Action.surfaceQuery p2] ++ remActs ++ addActs)
        else
          (st1, [Action.surfaceQuery p2])
      | none => (st1, [])
    (st2, [Action.setActorPosition p0 p1] ++ acts2)
  | _, _ => (st, [])

/-- `ProcessMRMLEvents` (lines 470-570): return immediately when the caller
is the scene and the scene is bulk-updating; on a scene-imported or
scene-restored event call `UpdateSliceNode` and return; on a modified event
from a crosshair node run the classifier-driven rebuild, the conditional
position update, and copy the crosshair node into the cache; finally (except
on the two early returns) request a render. -/
def processMRMLEvents (caller : Caller) (event : MRMLEvent)
    (st : ManagerState) : ManagerState × List Action :=
  if caller = Caller.scene ∧ st.sceneIsUpdating = true then
    (st, [])
  else if event = MRMLEvent.sceneImported ∨ event = MRMLEvent.sceneRestored then
    (updateSliceNode st, [Action.updateSliceNodeAct])
  else
    let (st1, acts1) :=
      if event = MRMLEvent.modified ∧ caller = Caller.crosshairNode then
        let (stA, actsA, builtCrosshair) :=
          if didCrosshairPropertyChange st = true then
            (buildCrosshair st, [Action.buildCrosshairAct], true)
          else
            (st, [], false)
        let (stB, actsB) :=
          if (didCrosshairPositionChange stA = true ∨ builtCrosshair = true) ∧
             stA.actor.isSome = true then
            poseUpdate stA
          else
            (stA, [])
        let stC := match stB.crosshairNode with
          | some node => { stB with cache := node.state }
          | none => stB
        (stC, actsA ++ actsB ++ [Action.copyCache])
      else
        (st, [])
    (st1, acts1 ++ [Action.requestRender])

/-- `AdditionalInitializeStep` (lines 616-623): register for mouse-move
events (outside this model) and build the initial crosshair
representation. -/
def additionalInitializeStep (st : ManagerState) : ManagerState :=
  buildCrosshair st

/-- Attachment bookkeeping soundness for the current glyph: the current
actor is attached to at most one renderer (no renderer-actor record at all,
or exactly one), and when it is attached the renderer is the remembered
`LightBoxRenderer`; all attachment records and the current actor use ids
below the fresh-id counter. -/
def AttachInv (st : ManagerState) : Prop :=
  (∀ a, st.actor = some a →
    ((st.rendererActors.filter (fun p => p.2 = a.actorId) = [] ∨
      ∃ r, st.rendererActors.filter (fun p => p.2 = a.actorId) = [(r, a.actorId)] ∧
        st.lightBoxRenderer = some r) ∧
     a.actorId < st.nextActorId)) ∧
  (∀ p ∈ st.rendererActors, p.2 < st.nextActorId)

/-- The segments encoded by a `(points, cells)` pair, resolving each cell's
point ids to the inserted coordinates. -/
def geometrySegments (g : List (ℤ × ℤ × ℤ) × List (ℕ × ℕ)) :
    List ((ℤ × ℤ × ℤ) × (ℤ × ℤ × ℤ)) :=
  g.2.map (fun c => (g.1.getD c.1 (0, 0, 0), g.1.getD c.2 (0, 0, 0)))

/-- A crosshair state used as the default cache content of the concrete
manager states below. -/
def baseCache : CrosshairState :=
  { ras0 := 0, ras1 := 0, ras2 := 0
    mode := CrosshairMode.showBasic, thickness := CrosshairThickness.medium }

/-- A concrete manager state: empty scene, no bindings, no actor, identity
XYToRAS matrix, 800 by 600 screen. -/
def baseState : ManagerState :=
  { scene := none
    sceneIsUpdating := false
    sliceLayoutName := some "Red"
    sliceCompositeNode := none
    crosshairNode := none
    cache := baseCache
    observers := []
    actor := none
    nextActorId := 0
    lightBoxRenderer := none
    rendererActors := []
    lightBoxProxy := none
    xyToRAS := 1
    screenW := 800
    screenH := 600 }

/-- A crosshair node whose first RAS coordinate differs from the cache of
`baseState` by exactly the tolerance `eps`. -/
def c1Node : CrosshairNode :=
  { nodeId := 1, crosshairName := "default"
    state := { baseCache with ras0 := crosshairEps } }

/-- Manager state with `c1Node` bound: every coordinate delta against the
cache has magnitude at most `eps` (the first exactly `eps`). -/
def c1State : ManagerState := { baseState with crosshairNode := some c1Node }

/-- A crosshair node agreeing exactly with the cache of `baseState`. -/
def c3Node : CrosshairNode :=
  { nodeId := 2, crosshairName := "default", state := baseCache }

/-- Manager state with the scene bulk-update flag raised and `c3Node`
bound. -/
def c3State : ManagerState :=
  { baseState with sceneIsUpdating := true, crosshairNode := some c3Node }

/-- A crosshair node with mode basic and thickness medium. -/
def c4Node : CrosshairNode :=
  { nodeId := 3, crosshairName := "default"
    state := { baseCache with
                 mode := CrosshairMode.showBasic
                 thickness := CrosshairThickness.medium } }

/-- Manager state with `c4Node` bound and an 800 by 600 screen. -/
def c4State : ManagerState := { baseState with crosshairNode := some c4Node }

/-- A crosshair node at RAS position (10, 20, 30), with mode and thickness
matching the cache of `baseState`. -/
def c5Node : CrosshairNode :=
  { nodeId := 4, crosshairName := "default"
    state := { baseCache with ras0 := 10, ras1 := 20, ras2 := 30 } }

/-- An already-built actor with no geometry, not yet positioned. -/
def c5Actor : Actor2D :=
  { actorId := 0, points := [], cells := [], lineWidth := none
    color := none, opacity := none, visible := none, position := none }

/-- A lightbox proxy answering renderer 5 exactly for depth 30. -/
def c5Proxy : ℚ → Option ℕ := fun z => if z = 30 then some 5 else none

/-- Manager state with `c5Node` bound, an existing actor, the proxy
`c5Proxy` and the identity XYToRAS matrix. -/
def c5State : ManagerState :=
  { baseState with
      crosshairNode := some c5Node
      actor := some c5Actor
      nextActorId := 1
      lightBoxProxy := some c5Proxy }

/-- A crosshair node agreeing with the cache of `baseState`. -/
def c6Node : CrosshairNode :=
  { nodeId := 6, crosshairName := "default", state := baseCache }

/-- Manager state with `c6Node` bound. -/
def c6State : ManagerState := { baseState with crosshairNode := some c6Node }

/-- A composite node whose layout name is "Red". -/
def c8Composite : SliceCompositeNode := { nodeId := 10, layoutName := some "Red" }

/-- A crosshair node named "default". -/
def c8Crosshair : CrosshairNode :=
  { nodeId := 11, crosshairName := "default", state := baseCache }

/-- A scene containing one matching crosshair node and one matching
composite node, for instantiating the lookup theorems. -/
def c8Scene : List SceneNode :=
  [SceneNode.other 9, SceneNode.composite c8Composite, SceneNode.crosshair c8Crosshair]

/-! ### Helper lemmas -/

theorem invert4_one : invert4 (1 : Matrix (Fin 4) (Fin 4) ℚ) = 1 := by
  simp [invert4]

theorem buildCrosshair_crosshairNode (st : ManagerState) :
    (buildCrosshair st).crosshairNode = st.crosshairNode := by
  cases h : st.crosshairNode <;> simp [buildCrosshair, h]

theorem poseUpdate_crosshairNode (st : ManagerState) :
    ((poseUpdate st).1).crosshairNode = st.crosshairNode := by
  cases hcn : st.crosshairNode with
  | none => simp [poseUpdate, hcn]
  | some n =>
    cases ha : st.actor with
    | none => simp [poseUpdate, hcn, ha]
    | some a =>
      cases hp : st.lightBoxProxy with
      | none => simp [poseUpdate, hcn, ha, hp]
      | some proxy =>
        simp only [poseUpdate, hcn, ha, hp]
        repeat' split <;> simp [hcn]

theorem copyCache_not_mem_poseUpdate (st : ManagerState) :
    Action.copyCache ∉ (poseUpdate st).2 := by
  cases hcn : st.crosshairNode with
  | none => simp [poseUpdate, hcn]
  | some n =>
    cases ha : st.actor with
    | none => simp [poseUpdate, hcn, ha]
    | some a =>
      cases hp : st.lightBoxProxy with
      | none => simp [poseUpdate, hcn, ha, hp]
      | some proxy =>
        simp only [poseUpdate, hcn, ha, hp]
        repeat' split <;> simp

/-- On a modified event from the crosshair node the recorded trace always
ends with the cache copy followed by the render request, and the cache copy
appears nowhere earlier. -/
theorem crosshairModified_trace (st : ManagerState) :
    ∃ pre, (processMRMLEvents Caller.crosshairNode MRMLEvent.modified st).2
        = pre ++ [Action.copyCache, Action.requestRender] ∧
      Action.copyCache ∉ pre := by
  unfold processMRMLEvents
  rw [if_neg (by simp), if_neg (by decide), if_pos ⟨rfl, rfl⟩]
  cases h4 : didCrosshairPropertyChange st with
  | false =>
    rw [if_neg (by simp)]
    dsimp only
    by_cases h5 : (didCrosshairPositionChange st = true ∨ false = true) ∧
        st.actor.isSome = true
    · rw [if_pos h5]
      exact ⟨[] ++ (poseUpdate st).2, by simp, by simp [copyCache_not_mem_poseUpdate]⟩
    · rw [if_neg h5]
      exact ⟨[], by simp, by simp⟩
  | true =>
    rw [if_pos rfl]
    dsimp only
    by_cases h5 : (didCrosshairPositionChange (buildCrosshair st) = true ∨ true = true) ∧
        (buildCrosshair st).actor.isSome = true
    · rw [if_pos h5]
      exact ⟨[Action.buildCrosshairAct] ++ (poseUpdate (buildCrosshair st)).2, by simp,
        by simp [copyCache_not_mem_poseUpdate]⟩
    · rw [if_neg h5]
      exact ⟨[Action.buildCrosshairAct], by simp, by simp⟩

theorem FindResult.toOption_eq_some {α : Type} (r : FindResult α) (c : α) :
    r.toOption = some c ↔ r = FindResult.found c := by
  cases r <;> simp [FindResult.toOption]

theorem findSliceCompositeNode_found (sc : Option (List SceneNode))
    (sl : Option String) (c : SliceCompositeNode)
    (h : findSliceCompositeNode sc sl = FindResult.found c) :
    ∃ layout, sl = some layout ∧ c.layoutName = some layout := by
  unfold findSliceCompositeNode at h
  cases sc with
  | none => simp at h
  | some nodes =>
    cases sl with
    | none => simp at h
    | some layout =>
      dsimp only at h
      refine ⟨layout, rfl, ?_⟩
      cases hf : nodes.findSome? (fun nd =>
          match nd with
          | SceneNode.composite cc => if cc.layoutName = some layout then some cc else none
          | _ => none) with
      | none => rw [hf] at h; simp at h
      | some c2 =>
        rw [hf] at h
        dsimp only at h
        cases h
        obtain ⟨nd, hmem, hnd⟩ := List.exists_of_findSome?_eq_some hf
        cases nd with
        | composite cc =>
          by_cases hly : cc.layoutName = some layout
          · simp only [hly, if_pos rfl] at hnd
            cases hnd
            exact hly
          · simp [hly] at hnd
        | crosshair _ => simp at hnd
        | other _ => simp at hnd

theorem needsCompositeRebind_false_elim (s : ManagerState)
    (h : needsCompositeRebind s = false) :
    ∃ c layout, s.sliceCompositeNode = some c ∧ c.layoutName = some layout ∧
      s.sliceLayoutName = some layout := by
  unfold needsCompositeRebind at h
  cases h1 : s.sliceCompositeNode with
  | none => rw [h1] at h; simp at h
  | some c =>
    rw [h1] at h
    dsimp only at h
    cases h2 : c.layoutName with
    | none => rw [h2] at h; simp at h
    | some layout =>
      rw [h2] at h
      dsimp only at h
      refine ⟨c, layout, rfl, h2, ?_⟩
      simpa using h

theorem needsCompositeRebind_of_match (s : ManagerState) (c : SliceCompositeNode)
    (layout : String) (h1 : s.sliceCompositeNode = some c)
    (h2 : c.layoutName = some layout) (h3 : s.sliceLayoutName = some layout) :
    needsCompositeRebind s = false := by
  unfold needsCompositeRebind
  rw [h1]
  dsimp only
  rw [h2]
  dsimp only
  rw [h3]
  simp

theorem setSliceCompositeNode_self (st : ManagerState) (c : Option SliceCompositeNode)
    (h : st.sliceCompositeNode = c) : setSliceCompositeNode st c = st := by
  unfold setSliceCompositeNode
  rw [if_pos h]

theorem setCrosshairNode_self (st : ManagerState) (c : Option CrosshairNode)
    (h : st.crosshairNode = c) : setCrosshairNode st c = st := by
  unfold setCrosshairNode
  rw [if_pos h]

theorem setSliceCompositeNode_scene (st : ManagerState) (c : Option SliceCompositeNode) :
    (setSliceCompositeNode st c).scene = st.scene := by
  unfold setSliceCompositeNode
  split <;> rfl

theorem setSliceCompositeNode_sliceLayoutName (st : ManagerState)
    (c : Option SliceCompositeNode) :
    (setSliceCompositeNode st c).sliceLayoutName = st.sliceLayoutName := by
  unfold setSliceCompositeNode
  split <;> rfl

theorem setSliceCompositeNode_sliceCompositeNode (st : ManagerState)
    (c : Option SliceCompositeNode) :
    (setSliceCompositeNode st c).sliceCompositeNode = c := by
  unfold setSliceCompositeNode
  split
  · rename_i h
    exact h
  · rfl

theorem setCrosshairNode_scene (st : ManagerState) (c : Option CrosshairNode) :
    (setCrosshairNode st c).scene = st.scene := by
  unfold setCrosshairNode
  split <;> rfl

theorem setCrosshairNode_sliceLayoutName (st : ManagerState) (c : Option CrosshairNode) :
    (setCrosshairNode st c).sliceLayoutName = st.sliceLayoutName := by
  unfold setCrosshairNode
  split <;> rfl

theorem setCrosshairNode_sliceCompositeNode (st : ManagerState) (c : Option CrosshairNode) :
    (setCrosshairNode st c).sliceCompositeNode = st.sliceCompositeNode := by
  unfold setCrosshairNode
  split <;> rfl

theorem setCrosshairNode_crosshairNode (st : ManagerState) (c : Option CrosshairNode) :
    (setCrosshairNode st c).crosshairNode = c := by
  unfold setCrosshairNode
  split
  · rename_i h
    exact h
  · rfl

theorem crosshairScan_eq_some (nd : SceneNode) (c : CrosshairNode) :
    (match nd with
     | SceneNode.crosshair cc => if cc.crosshairName = "default" then some cc else none
     | _ => none) = some c ↔
    nd = SceneNode.crosshair c ∧ c.crosshairName = "default" := by
  cases nd with
  | crosshair cc =>
    by_cases hn : cc.crosshairName = "default"
    · simp only [hn, if_pos rfl]
      constructor
      · rintro h
        cases h
        exact ⟨rfl, hn⟩
      · rintro ⟨h, _⟩
        cases h
        rfl
    · simp only [if_neg hn]
      constructor
      · rintro h
        cases h
      · rintro ⟨h, hname⟩
        cases h
        exact absurd hname hn
  | composite _ => simp
  | other _ => simp

theorem compositeScan_eq_some (layout : String) (nd : SceneNode) (c : SliceCompositeNode) :
    (match nd with
     | SceneNode.composite cc => if cc.layoutName = some layout then some cc else none
     | _ => none) = some c ↔
    nd = SceneNode.composite c ∧ c.layoutName = some layout := by
  cases nd with
  | composite cc =>
    by_cases hn : cc.layoutName = some layout
    · simp only [hn, if_pos rfl]
      constructor
      · rintro h
        cases h
        exact ⟨rfl, hn⟩
      · rintro ⟨h, _⟩
        cases h
        rfl
    · simp only [if_neg hn]
      constructor
      · rintro h
        cases h
      · rintro ⟨h, hname⟩
        cases h
        exact absurd hname hn
  | crosshair _ => simp
  | other _ => simp

theorem filter_erase_of_filter_eq_nil {α : Type} [BEq α] [LawfulBEq α] (l : List α)
    (p : α → Bool) (x : α) (h : l.filter p = []) : (l.erase x).filter p = [] := by
  have hsub := (List.erase_sublist x l).filter p
  rw [h] at hsub
  exact List.sublist_nil.mp hsub

theorem filter_erase_of_filter_eq_singleton {α : Type} [BEq α] [LawfulBEq α] (l : List α)
    (p : α → Bool) (x : α) (h : l.filter p = [x]) : (l.erase x).filter p = [] := by
  induction l with
  | nil => simp at h
  | cons a l ih =>
    by_cases hpa : p a = true
    · rw [List.filter_cons_of_pos hpa] at h
      injection h with h1 h2
      subst h1
      rw [List.erase_cons_head]
      exact h2
    · rw [List.filter_cons_of_neg hpa] at h
      have hx : p x = true := by
        have hxmem : x ∈ l.filter p := by
          rw [h]
          exact List.mem_singleton_self x
        exact (List.mem_filter.mp hxmem).2
      have hax : ¬ a = x := fun he => hpa (he ▸ hx)
      rw [List.erase_cons_tail (by simpa using hax), List.filter_cons_of_neg hpa]
      exact ih h

theorem attachInv_of_fields (st st' : ManagerState)
    (ha : st'.actor = st.actor) (hr : st'.rendererActors = st.rendererActors)
    (hl : st'.lightBoxRenderer = st.lightBoxRenderer)
    (hn : st'.nextActorId = st.nextActorId)
    (h : AttachInv st) : AttachInv st' := by
  unfold AttachInv at h ⊢
  rw [ha, hr, hl, hn]
  exact h

theorem filter_nextActorId_eq_nil (l : List (ℕ × ℕ)) (n : ℕ)
    (hl : ∀ p ∈ l, p.2 < n) : l.filter (fun p => p.2 = n) = [] := by
  rw [List.filter_eq_nil_iff]
  intro p hp
  simp only [decide_eq_true_eq]
  exact Nat.ne_of_lt (hl p hp)

theorem attachInv_mk (st' : ManagerState) (a1 : Actor2D)
    (ha : st'.actor = some a1)
    (hdisj : st'.rendererActors.filter (fun p => p.2 = a1.actorId) = [] ∨
      ∃ r, st'.rendererActors.filter (fun p => p.2 = a1.actorId) = [(r, a1.actorId)] ∧
        st'.lightBoxRenderer = some r)
    (hlt : a1.actorId < st'.nextActorId)
    (hall : ∀ p ∈ st'.rendererActors, p.2 < st'.nextActorId) :
    AttachInv st' := by
  refine ⟨?_, hall⟩
  intro a' ha'
  rw [ha] at ha'
  cases ha'
  exact ⟨hdisj, hlt⟩

theorem attachInv_buildCrosshair (st : ManagerState) (h : AttachInv st) :
    AttachInv (buildCrosshair st) := by
  obtain ⟨hact, hall⟩ := h
  cases hcn : st.crosshairNode with
  | none =>
    have hb : buildCrosshair st = st := by
      unfold buildCrosshair
      rw [hcn]
    rw [hb]
    exact ⟨hact, hall⟩
  | some node =>
    simp only [buildCrosshair, hcn]
    cases hao : st.actor with
    | none =>
      cases hlb : st.lightBoxRenderer with
      | none =>
        dsimp only
        refine ⟨?_, ?_⟩
        · intro a' ha'
          cases ha'
          refine ⟨Or.inl (filter_nextActorId_eq_nil _ _ hall), Nat.lt_succ_self _⟩
        · intro p hp
          exact Nat.lt_succ_of_lt (hall p hp)
      | some r =>
        dsimp only
        refine ⟨?_, ?_⟩
        · intro a' ha'
          cases ha'
          refine ⟨Or.inr ⟨r, ?_, rfl⟩, Nat.lt_succ_self _⟩
          rw [List.filter_append, filter_nextActorId_eq_nil _ _ hall]
          simp
        · intro p hp
          rcases List.mem_append.mp hp with hp | hp
          · exact Nat.lt_succ_of_lt (hall p hp)
          · rw [List.mem_singleton.mp hp]
            exact Nat.lt_succ_self _
    | some a =>
      cases hlb : st.lightBoxRenderer with
      | none =>
        dsimp only
        refine ⟨?_, ?_⟩
        · intro a' ha'
          cases ha'
          refine ⟨Or.inl (filter_nextActorId_eq_nil _ _ hall), Nat.lt_succ_self _⟩
        · intro p hp
          exact Nat.lt_succ_of_lt (hall p hp)
      | some r =>
        dsimp only
        refine ⟨?_, ?_⟩
        · intro a' ha'
          cases ha'
          refine ⟨Or.inr ⟨r, ?_, rfl⟩, Nat.lt_succ_self _⟩
          rw [List.filter_append,
            filter_nextActorId_eq_nil _ _
              (fun p hp => hall p (List.mem_of_mem_erase hp))]
          simp
        · intro p hp
          rcases List.mem_append.mp hp with hp | hp
          · exact Nat.lt_succ_of_lt (hall p (List.mem_of_mem_erase hp))
          · rw [List.mem_singleton.mp hp]
            exact Nat.lt_succ_self _

theorem attachInv_poseUpdate (st : ManagerState) (h : AttachInv st) :
    AttachInv ((poseUpdate st).1) := by
  obtain ⟨hact, hall⟩ := h
  cases hcn : st.crosshairNode with
  | none =>
    simp only [poseUpdate, hcn]
    exact ⟨hact, hall⟩
  | some node =>
    cases hao : st.actor with
    | none =>
      simp only [poseUpdate, hcn, hao]
      exact ⟨hact, hall⟩
    | some a =>
      obtain ⟨hdisj, hlt⟩ := hact a hao
      cases hp : st.lightBoxProxy with
      | none =>
        simp only [poseUpdate, hcn, hao, hp]
        refine attachInv_mk _ _ rfl ?_ hlt hall
        exact hdisj
      | some proxy =>
        simp only [poseUpdate, hcn, hao, hp]
        split
        · rename_i hne
          split
          · rename_i rP hP
            split
            · rename_i rL hL
              have hfe : (st.rendererActors.erase (rL, a.actorId)).filter
                  (fun p => p.2 = a.actorId) = [] := by
                rcases hdisj with hnil | ⟨r', hsing, hlb'⟩
                · exact filter_erase_of_filter_eq_nil _ _ _ hnil
                · rw [hL] at hlb'
                  cases hlb'
                  exact filter_erase_of_filter_eq_singleton _ _ _ hsing
              refine attachInv_mk _ _ rfl ?_ ?_ ?_ <;> dsimp only
              · refine Or.inr ⟨rP, ?_, hP⟩
                rw [List.filter_append, hfe]
                simp
              · exact hlt
              · intro p hp
                rcases List.mem_append.mp hp with hp | hp
                · exact hall p (List.mem_of_mem_erase hp)
                · rw [List.mem_singleton.mp hp]
                  exact hlt
            · rename_i hL
              have hfe : st.rendererActors.filter (fun p => p.2 = a.actorId) = [] := by
                rcases hdisj with hnil | ⟨r', hsing, hlb'⟩
                · exact hnil
                · rw [hL] at hlb'
                  cases hlb'
              refine attachInv_mk _ _ rfl ?_ ?_ ?_ <;> dsimp only
              · refine Or.inr ⟨rP, ?_, hP⟩
                rw [List.filter_append, hfe]
                simp
              · exact hlt
              · intro p hp
                rcases List.mem_append.mp hp with hp | hp
                · exact hall p hp
                · rw [List.mem_singleton.mp hp]
                  exact hlt
          · rename_i hP
            split
            · rename_i rL hL
              have hfe : (st.rendererActors.erase (rL, a.actorId)).filter
                  (fun p => p.2 = a.actorId) = [] := by
                rcases hdisj with hnil | ⟨r', hsing, hlb'⟩
                · exact filter_erase_of_filter_eq_nil _ _ _ hnil
                · rw [hL] at hlb'
                  cases hlb'
                  exact filter_erase_of_filter_eq_singleton _ _ _ hsing
              refine attachInv_mk _ _ rfl ?_ ?_ ?_ <;> dsimp only
              · exact Or.inl hfe
              · exact hlt
              · intro p hp
                exact hall p (List.mem_of_mem_erase hp)
            · rename_i hL
              have hfe : st.rendererActors.filter (fun p => p.2 = a.actorId) = [] := by
                rcases hdisj with hnil | ⟨r', hsing, hlb'⟩
                · exact hnil
                · rw [hL] at hlb'
                  cases hlb'
              refine attachInv_mk _ _ rfl ?_ ?_ ?_ <;> dsimp only
              · exact Or.inl hfe
              · exact hlt
              · intro p hp
                exact hall p hp
        · refine attachInv_mk _ _ rfl ?_ hlt hall
          exact hdisj

theorem attachInv_setSliceCompositeNode (st : ManagerState) (c : Option SliceCompositeNode)
    (h : AttachInv st) : AttachInv (setSliceCompositeNode st c) := by
  unfold setSliceCompositeNode
  split
  · exact h
  · exact attachInv_of_fields st _ rfl rfl rfl rfl h

theorem attachInv_setCrosshairNode (st : ManagerState) (c : Option CrosshairNode)
    (h : AttachInv st) : AttachInv (setCrosshairNode st c) := by
  unfold setCrosshairNode
  split
  · exact h
  · exact attachInv_of_fields st _ rfl rfl rfl rfl h

theorem attachInv_updateSliceNode (st : ManagerState) (h : AttachInv st) :
    AttachInv (updateSliceNode st) := by
  unfold updateSliceNode
  apply attachInv_setCrosshairNode
  split
  · exact attachInv_setSliceCompositeNode _ _ h
  · exact h

theorem attachInv_processMRMLEvents (caller : Caller) (event : MRMLEvent)
    (st : ManagerState) (h : AttachInv st) :
    AttachInv (processMRMLEvents caller event st).1 := by
  unfold processMRMLEvents
  by_cases h1 : caller = Caller.scene ∧ st.sceneIsUpdating = true
  · rw [if_pos h1]
    exact h
  · rw [if_neg h1]
    by_cases h2 : event = MRMLEvent.sceneImported ∨ event = MRMLEvent.sceneRestored
    · rw [if_pos h2]
      exact attachInv_updateSliceNode st h
    · rw [if_neg h2]
      by_cases h3 : event = MRMLEvent.modified ∧ caller = Caller.crosshairNode
      · rw [if_pos h3]
        cases h4 : didCrosshairPropertyChange st with
        | true =>
          rw [if_pos rfl]
          dsimp only
          have hA : AttachInv (buildCrosshair st) := attachInv_buildCrosshair st h
          by_cases h5 : (didCrosshairPositionChange (buildCrosshair st) = true ∨ true = true) ∧
              (buildCrosshair st).actor.isSome = true
          · rw [if_pos h5]
            have hB0 := attachInv_poseUpdate (buildCrosshair st) hA
            rcases hpu : poseUpdate (buildCrosshair st) with ⟨stB, actsB⟩
            rw [hpu] at hB0
            dsimp only
            cases h6 : stB.crosshairNode with
            | some node => exact attachInv_of_fields _ _ rfl rfl rfl rfl hB0
            | none => exact hB0
          · rw [if_neg h5]
            dsimp only
            cases h6 : (buildCrosshair st).crosshairNode with
            | some node => exact attachInv_of_fields _ _ rfl rfl rfl rfl hA
            | none => exact hA
        | false =>
          rw [if_neg (by simp)]
          dsimp only
          by_cases h5 : (didCrosshairPositionChange st = true ∨ false = true) ∧
              st.actor.isSome = true
          · rw [if_pos h5]
            have hB0 := attachInv_poseUpdate st h
            rcases hpu : poseUpdate st with ⟨stB, actsB⟩
            rw [hpu] at hB0
            dsimp only
            cases h6 : stB.crosshairNode with
            | some node => exact attachInv_of_fields _ _ rfl rfl rfl rfl hB0
            | none => exact hB0
          · rw [if_neg h5]
            dsimp only
            cases h6 : st.crosshairNode with
            | some node => exact attachInv_of_fields _ _ rfl rfl rfl rfl h
            | none => exact h
      · rw [if_neg h3]
        exact h

/-! ### Claim theorems -/

/-- Claim C1, counterexample: a cached snapshot and a bound crosshair node
whose three coordinate deltas all have magnitude at most 1e-12 (the first
exactly 1e-12), yet `DidCrosshairPositionChange` returns true — the code
compares with strict `<`, so a delta of exactly the tolerance counts as a
change, contradicting the claim's "at most 1e-12 gives false". -/
theorem c1_position_tolerance_counterexample :
    c1State.crosshairNode = some c1Node ∧
    |c1State.cache.ras0 - c1Node.state.ras0| ≤ crosshairEps ∧
    |c1State.cache.ras1 - c1Node.state.ras1| ≤ crosshairEps ∧
    |c1State.cache.ras2 - c1Node.state.ras2| ≤ crosshairEps ∧
    didCrosshairPositionChange c1State = true := by
  refine ⟨rfl, ?_, ?_, ?_, ?_⟩
  · norm_num [c1State, c1Node, baseState, baseCache, crosshairEps, zero_sub, abs_neg,
      abs_of_nonneg]
  · norm_num [c1State, c1Node, baseState, baseCache, crosshairEps]
  · norm_num [c1State, c1Node, baseState, baseCache, crosshairEps]
  · norm_num [didCrosshairPositionChange, c1State, c1Node, baseState, baseCache, crosshairEps,
      zero_sub, abs_neg, abs_of_nonneg]

/-- Claim C1, amended: `DidCrosshairPositionChange` returns true iff a
crosshair node is bound and some position-coordinate delta against the
cache has magnitude at least 1e-12 (in particular whenever it exceeds
1e-12); it returns false when every delta has magnitude strictly less than
1e-12 and when no crosshair node is bound. -/
theorem c1_position_change_iff (st : ManagerState) :
    didCrosshairPositionChange st = true ↔
      ∃ node, st.crosshairNode = some node ∧
        (crosshairEps ≤ |st.cache.ras0 - node.state.ras0| ∨
         crosshairEps ≤ |st.cache.ras1 - node.state.ras1| ∨
         crosshairEps ≤ |st.cache.ras2 - node.state.ras2|) := by
  unfold didCrosshairPositionChange
  cases h : st.crosshairNode with
  | none => simp [h]
  | some node =>
    simp only [h, Option.some.injEq]
    by_cases hcond : |st.cache.ras0 - node.state.ras0| < crosshairEps ∧
        |st.cache.ras1 - node.state.ras1| < crosshairEps ∧
        |st.cache.ras2 - node.state.ras2| < crosshairEps
    · rw [if_pos hcond]
      simp only [Bool.false_eq_true, false_iff]
      rintro ⟨n, hn, hD⟩
      cases hn
      rcases hD with hD | hD | hD
      · exact absurd hcond.1 (not_lt.mpr hD)
      · exact absurd hcond.2.1 (not_lt.mpr hD)
      · exact absurd hcond.2.2 (not_lt.mpr hD)
    · rw [if_neg hcond]
      simp only [true_iff]
      refine ⟨node, rfl, ?_⟩
      by_contra hD
      push_neg at hD
      exact hcond ⟨hD.1, hD.2.1, hD.2.2⟩

/-- Claim C2: `DidCrosshairPropertyChange` returns true iff a crosshair
node is bound and its display mode or thickness differs from the cached
value (exact comparison); in particular it returns false when no crosshair
node is bound. -/
theorem c2_property_change_iff (st : ManagerState) :
    didCrosshairPropertyChange st = true ↔
      ∃ node, st.crosshairNode = some node ∧
        (node.state.mode ≠ st.cache.mode ∨
         node.state.thickness ≠ st.cache.thickness) := by
  unfold didCrosshairPropertyChange
  cases h : st.crosshairNode with
  | none => simp [h]
  | some node =>
    simp only [h, Option.some.injEq]
    rw [show ((∃ n, node = n ∧
          (n.state.mode ≠ st.cache.mode ∨ n.state.thickness ≠ st.cache.thickness)) ↔
        (st.cache.mode ≠ node.state.mode ∨ st.cache.thickness ≠ node.state.thickness)) from by
      constructor
      · rintro ⟨n, rfl, hd | hd⟩
        · exact Or.inl (Ne.symm hd)
        · exact Or.inr (Ne.symm hd)
      · rintro (hd | hd)
        · exact ⟨node, rfl, Or.inl (Ne.symm hd)⟩
        · exact ⟨node, rfl, Or.inr (Ne.symm hd)⟩]
    by_cases hm : st.cache.mode = node.state.mode <;>
      by_cases ht : st.cache.thickness = node.state.thickness <;>
      simp [hm, ht]

/-- Claim C3, counterexample: with the scene bulk-update flag raised, a
modified notification from the crosshair node is still processed — the
handler copies the cache and requests a render — because the early return
only fires when the caller is the scene itself. -/
theorem c3_bulk_update_counterexample :
    c3State.sceneIsUpdating = true ∧
    (processMRMLEvents Caller.crosshairNode MRMLEvent.modified c3State).2
      = [Action.copyCache, Action.requestRender] := by
  have h1 : didCrosshairPropertyChange c3State = false := by
    norm_num [didCrosshairPropertyChange, c3State, c3Node, baseState, baseCache]
  have h2 : didCrosshairPositionChange c3State = false := by
    norm_num [didCrosshairPositionChange, c3State, c3Node, baseState, baseCache, crosshairEps]
  have hc : c3State.crosshairNode = some c3Node := rfl
  exact ⟨rfl, by simp [processMRMLEvents, h1, h2, hc]⟩

/-- Claim C3, amended: the bulk-update suppression applies only to
notifications raised by the scene itself — for a scene caller with the
bulk-update flag raised the handler returns immediately with no state
change and no action (in particular no render request); a modified
notification from the crosshair node is processed normally even during a
bulk update, still ending in a render request. -/
theorem c3_bulk_update_scene_caller_only :
    (∀ (st : ManagerState) (event : MRMLEvent), st.sceneIsUpdating = true →
      processMRMLEvents Caller.scene event st = (st, [])) ∧
    (∀ st : ManagerState, st.sceneIsUpdating = true →
      Action.requestRender ∈
        (processMRMLEvents Caller.crosshairNode MRMLEvent.modified st).2) := by
  constructor
  · intro st event hupd
    unfold processMRMLEvents
    rw [if_pos ⟨rfl, hupd⟩]
  · intro st hupd
    obtain ⟨pre, htr, _⟩ := crosshairModified_trace st
    rw [htr]
    simp

/-- Witness for the amended claim C3 at a concrete bulk-updating state. -/
theorem c3_bulk_update_scene_caller_only_witness :
    ({ baseState with sceneIsUpdating := true } : ManagerState).sceneIsUpdating = true ∧
    processMRMLEvents Caller.scene MRMLEvent.modified
        { baseState with sceneIsUpdating := true }
      = ({ baseState with sceneIsUpdating := true }, []) ∧
    Action.requestRender ∈ (processMRMLEvents Caller.crosshairNode MRMLEvent.modified
        { baseState with sceneIsUpdating := true }).2 :=
  ⟨rfl, c3_bulk_update_scene_caller_only.1 _ MRMLEvent.modified rfl,
    c3_bulk_update_scene_caller_only.2 _ rfl⟩

/-- Claim C4: for a bound crosshair node with mode basic and thickness
medium on an 800 by 600 screen, `BuildCrosshair` produces an actor with
exactly 4 line segments — one of them from (0, -600) to (0, -5) — line
width 3, color (1.0, 0.8, 0.1) and full opacity; and for any screen size
the four basic segments run between the 5-pixel inner gap edge and the
screen edge along each half-axis. -/
theorem c4_basic_medium_geometry :
    (∃ a, (buildCrosshair c4State).actor = some a ∧
      actorSegments a =
        [((0, -600, 0), (0, -5, 0)), ((0, 5, 0), (0, 600, 0)),
         ((-800, 0, 0), (-5, 0, 0)), ((5, 0, 0), (800, 0, 0))] ∧
      a.cells.length = 4 ∧ a.lineWidth = some 3 ∧
      a.color = some (1, 4/5, 1/10) ∧ a.opacity = some 1 ∧ a.visible = some true) ∧
    ∀ w h : ℤ, geometrySegments (crosshairGeometry CrosshairMode.showBasic w h) =
      [((0, -h, 0), (0, -5, 0)), ((0, 5, 0), (0, h, 0)),
       ((-w, 0, 0), (-5, 0, 0)), ((5, 0, 0), (w, 0, 0))] := by
  constructor
  · exact ⟨_, rfl, rfl, rfl, rfl, rfl, rfl, rfl⟩
  · intro w h
    rfl

/-- Claim C5: with the identity XYToRAS matrix and the crosshair at RAS
(10, 20, 30), processing the position update sets the actor's 2D position
to (10, 20) and queries the lightbox proxy with depth 30 (here answered by
renderer 5, to which the actor is re-parented); the pose is the inverse
matrix applied to the homogeneous position followed by division by w. -/
theorem c5_identity_pose_scenario :
    ((processMRMLEvents Caller.crosshairNode MRMLEvent.modified c5State).1.actor.map
        Actor2D.position) = some (some (10, 20)) ∧
    (processMRMLEvents Caller.crosshairNode MRMLEvent.modified c5State).2 =
      [Action.setActorPosition 10 20, Action.surfaceQuery 30, Action.addActorAct 5,
       Action.copyCache, Action.requestRender] ∧
    (processMRMLEvents Caller.crosshairNode MRMLEvent.modified c5State).1.lightBoxRenderer
      = some 5 := by
  have h1 : didCrosshairPropertyChange c5State = false := by
    norm_num [didCrosshairPropertyChange, c5State, c5Node, baseState, baseCache]
  have h2 : didCrosshairPositionChange c5State = true := by
    norm_num [didCrosshairPositionChange, c5State, c5Node, baseState, baseCache, crosshairEps,
      zero_sub, abs_neg, abs_of_nonneg]
  have hc : c5State.crosshairNode = some c5Node := rfl
  have ha : c5State.actor = some c5Actor := rfl
  have hl : c5State.lightBoxRenderer = none := rfl
  have hp : c5State.lightBoxProxy = some c5Proxy := rfl
  have hx : c5State.xyToRAS = 1 := rfl
  have hra : c5State.rendererActors = [] := rfl
  refine ⟨?_, ?_, ?_⟩ <;>
    simp [processMRMLEvents, h1, h2, hc, ha, hl, hp, hx, hra, poseUpdate, invert4_one,
      c5Node, c5Actor, c5Proxy, Matrix.one_mulVec, Matrix.cons_val_zero, Matrix.cons_val_one,
      Matrix.head_cons]

/-- Claim C6: while processing a modified notification from the bound
crosshair node, the cached snapshot is set to the node's full current state
(never partially), exactly once, after all conditional rebuild and
reposition work — the trace is some prefix without a cache copy, followed
by the cache copy and the final render request. -/
theorem c6_cache_refreshed_once_after_work (st : ManagerState) (node : CrosshairNode)
    (h : st.crosshairNode = some node) :
    (processMRMLEvents Caller.crosshairNode MRMLEvent.modified st).1.cache = node.state ∧
    ∃ pre, (processMRMLEvents Caller.crosshairNode MRMLEvent.modified st).2
        = pre ++ [Action.copyCache, Action.requestRender] ∧
      Action.copyCache ∉ pre := by
  unfold processMRMLEvents
  rw [if_neg (by simp), if_neg (by simp), if_pos ⟨rfl, rfl⟩]
  cases hprop : didCrosshairPropertyChange st with
  | false =>
    rw [if_neg (by simp)]
    dsimp only
    by_cases hpos : (didCrosshairPositionChange st = true ∨ false = true) ∧
        st.actor.isSome = true
    · rw [if_pos hpos]
      have hn : ((poseUpdate st).1).crosshairNode = some node := by
        rw [poseUpdate_crosshairNode, h]
      rw [hn]
      refine ⟨rfl, [] ++ (poseUpdate st).2, by simp, ?_⟩
      simp [copyCache_not_mem_poseUpdate]
    · rw [if_neg hpos, h]
      exact ⟨rfl, [], by simp, by simp⟩
  | true =>
    rw [if_pos rfl]
    dsimp only
    by_cases hpos : (didCrosshairPositionChange (buildCrosshair st) = true ∨ true = true) ∧
        (buildCrosshair st).actor.isSome = true
    · rw [if_pos hpos]
      have hn : ((poseUpdate (buildCrosshair st)).1).crosshairNode = some node := by
        rw [poseUpdate_crosshairNode, buildCrosshair_crosshairNode, h]
      rw [hn]
      refine ⟨rfl, [Action.buildCrosshairAct] ++ (poseUpdate (buildCrosshair st)).2,
        by simp, ?_⟩
      simp [copyCache_not_mem_poseUpdate]
    · rw [if_neg hpos, buildCrosshair_crosshairNode, h]
      exact ⟨rfl, [Action.buildCrosshairAct], by simp, by simp⟩

/-- Witness for claim C6 at a concrete state with a bound crosshair node. -/
theorem c6_cache_refreshed_once_after_work_witness :
    c6State.crosshairNode = some c6Node ∧
    ((processMRMLEvents Caller.crosshairNode MRMLEvent.modified c6State).1.cache
        = c6Node.state ∧
      ∃ pre, (processMRMLEvents Caller.crosshairNode MRMLEvent.modified c6State).2
          = pre ++ [Action.copyCache, Action.requestRender] ∧
        Action.copyCache ∉ pre) :=
  ⟨rfl, c6_cache_refreshed_once_after_work c6State c6Node rfl⟩

/-- Claim C7: rebinding is idempotent — running `UpdateSliceNode` twice
with no intervening scene change yields the same state (hence identical
observer subscriptions), and setting the already-bound crosshair or
composite node is a no-op that installs no duplicate observer. -/
theorem c7_rebind_idempotent (st : ManagerState) :
    updateSliceNode (updateSliceNode st) = updateSliceNode st ∧
    setCrosshairNode st st.crosshairNode = st ∧
    setSliceCompositeNode st st.sliceCompositeNode = st := by
  refine ⟨?_, setCrosshairNode_self st _ rfl, setSliceCompositeNode_self st _ rfl⟩
  have hr2 : ∀ s : ManagerState, updateSliceNode s =
      setCrosshairNode
        (if needsCompositeRebind s then
          setSliceCompositeNode s (findSliceCompositeNode s.scene s.sliceLayoutName).toOption
         else s)
        (findCrosshairNode
          ((if needsCompositeRebind s then
              setSliceCompositeNode s (findSliceCompositeNode s.scene s.sliceLayoutName).toOption
            else s)).scene).toOption := fun s => rfl
  set r := (findSliceCompositeNode st.scene st.sliceLayoutName).toOption with hr
  set st1 := (if needsCompositeRebind st then setSliceCompositeNode st r else st) with hst1
  have hst1scene : st1.scene = st.scene := by
    rw [hst1]; split
    · exact setSliceCompositeNode_scene st r
    · rfl
  have hst1layout : st1.sliceLayoutName = st.sliceLayoutName := by
    rw [hst1]; split
    · exact setSliceCompositeNode_sliceLayoutName st r
    · rfl
  set st2 := updateSliceNode st with hst2
  have hst2eq : st2 = setCrosshairNode st1 (findCrosshairNode st1.scene).toOption := by
    rw [hst2, hr2 st]
  have hst2scene : st2.scene = st.scene := by
    rw [hst2eq, setCrosshairNode_scene, hst1scene]
  have hst2layout : st2.sliceLayoutName = st.sliceLayoutName := by
    rw [hst2eq, setCrosshairNode_sliceLayoutName, hst1layout]
  have hst2comp : st2.sliceCompositeNode = st1.sliceCompositeNode := by
    rw [hst2eq, setCrosshairNode_sliceCompositeNode]
  have hst2cross : st2.crosshairNode = (findCrosshairNode st.scene).toOption := by
    rw [hst2eq, setCrosshairNode_crosshairNode, hst1scene]
  have hmain : (if needsCompositeRebind st2 then
      setSliceCompositeNode st2 (findSliceCompositeNode st2.scene st2.sliceLayoutName).toOption
      else st2) = st2 := by
    cases hA : needsCompositeRebind st with
    | false =>
      obtain ⟨c, layout, h1, h2, h3⟩ := needsCompositeRebind_false_elim st hA
      have hst1id : st1 = st := by
        rw [hst1, if_neg (by simp [hA])]
      have h1' : st2.sliceCompositeNode = some c := by
        rw [hst2comp, hst1id]; exact h1
      have hnc : needsCompositeRebind st2 = false :=
        needsCompositeRebind_of_match st2 c layout h1' h2 (by rw [hst2layout]; exact h3)
      rw [hnc]
      simp
    | true =>
      have hst1set : st1 = setSliceCompositeNode st r := by
        rw [hst1, if_pos (by rw [hA])]
      have h1' : st2.sliceCompositeNode = r := by
        rw [hst2comp, hst1set]; exact setSliceCompositeNode_sliceCompositeNode st r
      cases hrc : r with
      | some c =>
        have hfound : findSliceCompositeNode st.scene st.sliceLayoutName
            = FindResult.found c := by
          rw [← FindResult.toOption_eq_some, ← hr, hrc]
        obtain ⟨layout, hsl, hcl⟩ := findSliceCompositeNode_found _ _ _ hfound
        have hnc : needsCompositeRebind st2 = false :=
          needsCompositeRebind_of_match st2 c layout (by rw [h1', hrc]) hcl
            (by rw [hst2layout]; exact hsl)
        rw [hnc]
        simp
      | none =>
        have heq : (findSliceCompositeNode st2.scene st2.sliceLayoutName).toOption = r := by
          rw [hst2scene, hst2layout, hr]
        by_cases hnc : needsCompositeRebind st2 = true
        · rw [if_pos hnc, heq, hrc]
          exact setSliceCompositeNode_self st2 none (by rw [h1', hrc])
        · rw [if_neg hnc]
  rw [hr2 st2, hmain]
  exact setCrosshairNode_self st2 _ (by rw [hst2scene, hst2cross])

/-- Claim C8: the scene scans fault fatally (the `assert(0)` branch) when
the expected singleton is absent — a crosshair node named "default", or a
composite node matching the view's layout name — and never silently
substitute a default; when the expected node is present, the fatal branch
is unreachable and a matching node is returned. -/
theorem c8_find_fatal_policy :
    (∀ nodes : List SceneNode,
       (¬ ∃ c, SceneNode.crosshair c ∈ nodes ∧ c.crosshairName = "default") →
       findCrosshairNode (some nodes) = FindResult.fatalAssert) ∧
    (∀ nodes : List SceneNode,
       (∃ c, SceneNode.crosshair c ∈ nodes ∧ c.crosshairName = "default") →
       ∃ c, findCrosshairNode (some nodes) = FindResult.found c ∧
         SceneNode.crosshair c ∈ nodes ∧ c.crosshairName = "default") ∧
    (∀ (nodes : List SceneNode) (layout : String),
       (¬ ∃ c, SceneNode.composite c ∈ nodes ∧ c.layoutName = some layout) →
       findSliceCompositeNode (some nodes) (some layout) = FindResult.fatalAssert) ∧
    (∀ (nodes : List SceneNode) (layout : String),
       (∃ c, SceneNode.composite c ∈ nodes ∧ c.layoutName = some layout) →
       ∃ c, findSliceCompositeNode (some nodes) (some layout) = FindResult.found c ∧
         SceneNode.composite c ∈ nodes ∧ c.layoutName = some layout) := by
  refine ⟨?_, ?_, ?_, ?_⟩
  · intro nodes h
    have hnone : nodes.findSome? (fun nd =>
        match nd with
        | SceneNode.crosshair cc => if cc.crosshairName = "default" then some cc else none
        | _ => none) = none := by
      rw [List.findSome?_eq_none_iff]
      intro nd hmem
      cases hv : (match nd with
          | SceneNode.crosshair cc => if cc.crosshairName = "default" then some cc else none
          | _ => none) with
      | none => rfl
      | some c =>
        obtain ⟨rfl, hname⟩ := (crosshairScan_eq_some nd c).mp hv
        exact absurd ⟨c, hmem, hname⟩ h
    unfold findCrosshairNode
    dsimp only
    rw [hnone]
  · intro nodes h
    obtain ⟨c0, hmem, hname⟩ := h
    cases hf : nodes.findSome? (fun nd =>
        match nd with
        | SceneNode.crosshair cc => if cc.crosshairName = "default" then some cc else none
        | _ => none) with
    | none =>
      exfalso
      have hv := (List.findSome?_eq_none_iff).mp hf (SceneNode.crosshair c0) hmem
      simp [hname] at hv
    | some c =>
      obtain ⟨nd, hmem2, hnd⟩ := List.exists_of_findSome?_eq_some hf
      obtain ⟨rfl, hname2⟩ := (crosshairScan_eq_some nd c).mp hnd
      refine ⟨c, ?_, hmem2, hname2⟩
      unfold findCrosshairNode
      dsimp only
      rw [hf]
  · intro nodes layout h
    have hnone : nodes.findSome? (fun nd =>
        match nd with
        | SceneNode.composite cc => if cc.layoutName = some layout then some cc else none
        | _ => none) = none := by
      rw [List.findSome?_eq_none_iff]
      intro nd hmem
      cases hv : (match nd with
          | SceneNode.composite cc => if cc.layoutName = some layout then some cc else none
          | _ => none) with
      | none => rfl
      | some c =>
        obtain ⟨rfl, hname⟩ := (compositeScan_eq_some layout nd c).mp hv
        exact absurd ⟨c, hmem, hname⟩ h
    unfold findSliceCompositeNode
    dsimp only
    rw [hnone]
  · intro nodes layout h
    obtain ⟨c0, hmem, hname⟩ := h
    cases hf : nodes.findSome? (fun nd =>
        match nd with
        | SceneNode.composite cc => if cc.layoutName = some layout then some cc else none
        | _ => none) with
    | none =>
      exfalso
      have hv := (List.findSome?_eq_none_iff).mp hf (SceneNode.composite c0) hmem
      simp [hname] at hv
    | some c =>
      obtain ⟨nd, hmem2, hnd⟩ := List.exists_of_findSome?_eq_some hf
      obtain ⟨rfl, hname2⟩ := (compositeScan_eq_some layout nd c).mp hnd
      refine ⟨c, ?_, hmem2, hname2⟩
      unfold findSliceCompositeNode
      dsimp only
      rw [hf]

/-- Witness for claim C8 at concrete scenes: the empty scene faults, and a
scene containing the expected nodes returns them. -/
theorem c8_find_fatal_policy_witness :
    ((¬ ∃ c, SceneNode.crosshair c ∈ ([] : List SceneNode) ∧ c.crosshairName = "default") ∧
      findCrosshairNode (some []) = FindResult.fatalAssert) ∧
    ((∃ c, SceneNode.crosshair c ∈ c8Scene ∧ c.crosshairName = "default") ∧
      ∃ c, findCrosshairNode (some c8Scene) = FindResult.found c ∧
        SceneNode.crosshair c ∈ c8Scene ∧ c.crosshairName = "default") ∧
    ((¬ ∃ c, SceneNode.composite c ∈ ([] : List SceneNode) ∧ c.layoutName = some "Red") ∧
      findSliceCompositeNode (some []) (some "Red") = FindResult.fatalAssert) ∧
    ((∃ c, SceneNode.composite c ∈ c8Scene ∧ c.layoutName = some "Red") ∧
      ∃ c, findSliceCompositeNode (some c8Scene) (some "Red") = FindResult.found c ∧
        SceneNode.composite c ∈ c8Scene ∧ c.layoutName = some "Red") := by
  have hem : ¬ ∃ c, SceneNode.crosshair c ∈ ([] : List SceneNode) ∧
      c.crosshairName = "default" := by simp
  have hem2 : ¬ ∃ c, SceneNode.composite c ∈ ([] : List SceneNode) ∧
      c.layoutName = some "Red" := by simp
  have hex : ∃ c, SceneNode.crosshair c ∈ c8Scene ∧ c.crosshairName = "default" :=
    ⟨c8Crosshair, by simp [c8Scene], rfl⟩
  have hex2 : ∃ c, SceneNode.composite c ∈ c8Scene ∧ c.layoutName = some "Red" :=
    ⟨c8Composite, by simp [c8Scene], rfl⟩
  exact ⟨⟨hem, c8_find_fatal_policy.1 [] hem⟩,
    ⟨hex, c8_find_fatal_policy.2.1 c8Scene hex⟩,
    ⟨hem2, c8_find_fatal_policy.2.2.1 [] "Red" hem2⟩,
    ⟨hex2, c8_find_fatal_policy.2.2.2 c8Scene "Red" hex2⟩⟩

/-- Claim C9: the attachment invariant — the current glyph is attached to
at most one rendering surface, and when attached that surface is the
remembered lightbox renderer — is preserved by `BuildCrosshair` (which
detaches the previous glyph before discarding it) and by every
`ProcessMRMLEvents` call (whose re-parenting step detaches from the old
surface before attaching to the new one). -/
theorem c9_glyph_attached_to_at_most_one_surface (st : ManagerState) (h : AttachInv st) :
    AttachInv (buildCrosshair st) ∧
    ∀ (caller : Caller) (event : MRMLEvent),
      AttachInv (processMRMLEvents caller event st).1 :=
  ⟨attachInv_buildCrosshair st h,
   fun caller event => attachInv_processMRMLEvents caller event st h⟩

/-- Witness for claim C9 at a concrete state satisfying the invariant. -/
theorem c9_glyph_attached_to_at_most_one_surface_witness :
    AttachInv baseState ∧
    (AttachInv (buildCrosshair baseState) ∧
      ∀ (caller : Caller) (event : MRMLEvent),
        AttachInv (processMRMLEvents caller event baseState).1) := by
  have hb : AttachInv baseState := by
    constructor
    · intro a ha
      simp [baseState] at ha
    · intro p hp
      simp [baseState] at hp
  exact ⟨hb, c9_glyph_attached_to_at_most_one_surface baseState hb⟩

/-- Claim C10: when no crosshair node is bound, `BuildCrosshair` returns
immediately and the whole manager state is unchanged — in particular the
unconditional call in `AdditionalInitializeStep` creates no glyph. -/
theorem c10_buildCrosshair_noop_unbound (st : ManagerState)
    (h : st.crosshairNode = none) :
    buildCrosshair st = st ∧ additionalInitializeStep st = st := by
  have hb : buildCrosshair st = st := by
    unfold buildCrosshair
    rw [h]
  exact ⟨hb, hb⟩

/-- Witness for claim C10 at a concrete unbound state. -/
theorem c10_buildCrosshair_noop_unbound_witness :
    baseState.crosshairNode = none ∧ buildCrosshair baseState = baseState ∧
    additionalInitializeStep baseState = baseState :=
  ⟨rfl, (c10_buildCrosshair_noop_unbound baseState rfl).1,
    (c10_buildCrosshair_noop_unbound baseState rfl).2⟩

end CrosshairDM
